import Mathlib

/-!
Verification of the VPort / VSwitch bridge (vport.c, tap_utils.c/h, sys_utils.h).

The C sources are shallowly embedded: each loop body of the two forwarder
threads becomes a pure step function parameterized by the results of the
system calls it performs (read/recvfrom/sendto/write return values and the
bytes they deliver), and the effects of one iteration (datagrams sent, frames
written, log lines, the vport state after the iteration, and whether the
iteration falls through to the next one or aborts via a failed assert) are
collected in a result record.  `vport_init` and `tap_alloc` are embedded the
same way, parameterized by the results of `tap_alloc`/`open`/`ioctl`/
`socket`/`inet_pton`.

The switch side (vswitch.py) is not part of the sources; its forwarding
engine is modelled from the specification where a claim needs it.
-/

/-- `ETHER_MAX_LEN` from net/ethernet.h: maximum Ethernet frame size, 1518
bytes; the size of both pumps' `ether_data` buffer. -/
def ETHER_MAX_LEN : Nat := 1518

/-- `AF_INET` address family constant (IPv4). -/
def AF_INET : Nat := 2

/-- `htons`: convert a 16-bit value from host byte order (modelled as
little-endian, the platform of the source) to network byte order. -/
def htons (x : Nat) : Nat := (x % 256) * 256 + (x / 256) % 256

/-- `struct sockaddr_in`: the fields `vport.c` touches (family, port in
network byte order, IPv4 address as a 32-bit value). -/
structure SockAddrIn where
  sin_family : Nat
  sin_port : Nat
  sin_addr : Nat
deriving DecidableEq, Repr

/-- `struct vport_t` from vport.c: TAP device fd, UDP socket fd, and the
VSwitch address field. -/
structure Vport where
  tapfd : Int
  vport_sockfd : Int
  vswitch_addr : SockAddrIn
deriving DecidableEq, Repr

/-- How an iteration of a pump loop ends: fall through to the next iteration
of `while (true)`, or abort the process because `assert(ether_datasz >= 14)`
failed. -/
inductive PumpOutcome where
  | keepLooping
  | assertAbort
deriving DecidableEq, Repr

/-- Effects of one iteration of `forward_ether_data_to_vswitch`. -/
structure UplinkStepResult where
  /-- datagrams passed to `sendto`, each with its destination address -/
  sent : List (List Nat × SockAddrIn)
  /-- whether the `sendto size mismatch` line was printed to stderr -/
  mismatchLogged : Bool
  outcome : PumpOutcome
deriving DecidableEq, Repr

/-- Loop body of `forward_ether_data_to_vswitch` (vport.c): `read` has
returned `readRet`, depositing `buf` in `ether_data`; `sendRet` is what
`sendto` returns if it is reached.  If `readRet > 0` the body asserts
`readRet >= 14` (aborting on failure), then sends `readRet` bytes of
`ether_data` to `vport->vswitch_addr`, logging a mismatch when `sendto`
returned anything other than `readRet`. -/
def forward_ether_data_to_vswitch_step (vport : Vport) (readRet : Int)
    (buf : List Nat) (sendRet : Int) : UplinkStepResult :=
  if readRet > 0 then
    if readRet < 14 then
      ⟨[], false, .assertAbort⟩
    else
      ⟨[(buf.take readRet.toNat, vport.vswitch_addr)], sendRet != readRet, .keepLooping⟩
  else
    ⟨[], false, .keepLooping⟩

/-- Effects of one iteration of `forward_ether_data_to_tap`. -/
structure DownlinkStepResult where
  /-- the vport after the iteration (`recvfrom` writes its 5th argument,
  which the code points at `vport->vswitch_addr`) -/
  vport : Vport
  /-- frames passed to `write` on the TAP fd -/
  written : List (List Nat)
  /-- whether the `write size mismatch` line was printed to stderr -/
  mismatchLogged : Bool
  outcome : PumpOutcome
deriving DecidableEq, Repr

/-- Loop body of `forward_ether_data_to_tap` (vport.c): `recvfrom` has
returned `recvRet`, depositing `buf` in `ether_data`, and — because the code
passes `&vport->vswitch_addr` as the source-address out-parameter — on any
successful receive the kernel stores the datagram sender's address `sender`
into `vport.vswitch_addr`.  If `recvRet > 0` the body asserts
`recvRet >= 14` (aborting on failure), then writes `recvRet` bytes to the
TAP fd, logging a mismatch when `write` returned anything other than
`recvRet`. -/
def forward_ether_data_to_tap_step (vport : Vport) (recvRet : Int)
    (buf : List Nat) (sender : SockAddrIn) (writeRet : Int) : DownlinkStepResult :=
  let vport1 := if recvRet ≥ 0 then { vport with vswitch_addr := sender } else vport
  if recvRet > 0 then
    if recvRet < 14 then
      ⟨vport1, [], false, .assertAbort⟩
    else
      ⟨vport1, [buf.take recvRet.toNat], writeRet != recvRet, .keepLooping⟩
  else
    ⟨vport1, [], false, .keepLooping⟩

/-- Contract of `read(2)`/`recvfrom(2)` on a message of bytes `frame` with a
buffer of `bufsize` bytes: the call delivers the first
`min frame.length bufsize` bytes and returns their count. -/
def sysRead (frame : List Nat) (bufsize : Nat) : Int × List Nat :=
  ((frame.take bufsize).length, frame.take bufsize)

/-- One uplink iteration in which the TAP device delivers `frame`: the `read`
into the 1518-byte `ether_data` buffer, then the loop body. -/
def uplinkDeliver (vport : Vport) (frame : List Nat) (sendRet : Int) : UplinkStepResult :=
  let r := sysRead frame ETHER_MAX_LEN
  forward_ether_data_to_vswitch_step vport r.1 r.2 sendRet

/-- One downlink iteration in which the transport delivers the datagram
`dgram` from `sender`: the `recvfrom` into the 1518-byte `ether_data`
buffer, then the loop body. -/
def downlinkDeliver (vport : Vport) (sender : SockAddrIn) (dgram : List Nat)
    (writeRet : Int) : DownlinkStepResult :=
  let r := sysRead dgram ETHER_MAX_LEN
  forward_ether_data_to_tap_step vport r.1 r.2 sender writeRet

/-- Result of `vport_init`: either the process exits with the given status
(`ERROR_PRINT_THEN_EXIT` prints to stderr then calls `exit(1)`), or the
populated `vport_t`. -/
inductive InitResult where
  | exited (status : Nat)
  | ok (v : Vport)
deriving DecidableEq, Repr

/-- `vport_init` (vport.c), parameterized by the results of its external
calls: `tapRet` from `tap_alloc`, `sockRet` from `socket`, `ptonRet` from
`inet_pton` and `ptonAddr` the binary address it stores on success.  Each
setup failure hits `ERROR_PRINT_THEN_EXIT`, i.e. `exit(1)`; otherwise the
vport is populated with the two descriptors and the vswitch address
(`AF_INET`, `htons server_port`, the parsed address). -/
def vport_init (tapRet sockRet ptonRet : Int) (ptonAddr : Nat)
    (server_port : Nat) : InitResult :=
  if tapRet < 0 then .exited 1
  else if sockRet < 0 then .exited 1
  else if ptonRet != 1 then .exited 1
  else .ok ⟨tapRet, sockRet, ⟨AF_INET, htons server_port, ptonAddr⟩⟩

/-- Result of `tap_alloc`: its return value, the contents of the caller's
`dev` name buffer after the call, and whether the fd it opened was closed
before returning. -/
structure TapAllocResult where
  ret : Int
  dev : List Nat
  fdClosed : Bool
deriving DecidableEq, Repr

/-- `tap_alloc` (tap_utils.c), parameterized by the results of its external
calls: `openRet` from `open("/dev/net/tun")`, `ioctlRet` from
`ioctl(fd, TUNSETIFF, &ifr)`, and `kernelName` the interface name the kernel
leaves in `ifr.ifr_name` on ioctl success.  On open failure the error is
returned; on ioctl failure the fd is closed and the error returned with the
caller's buffer untouched; on success the kernel-assigned name is copied
into the caller's buffer and the fd returned. -/
def tap_alloc (dev : List Nat) (openRet ioctlRet : Int)
    (kernelName : List Nat) : TapAllocResult :=
  if openRet < 0 then ⟨openRet, dev, false⟩
  else if ioctlRet < 0 then ⟨ioctlRet, dev, true⟩
  else ⟨openRet, kernelName, false⟩

/-- Modelled from the spec: a MAC address is broadcast when it is
`ff:ff:ff:ff:ff:ff`.  (The switch, vswitch.py, is not among the sources.) -/
def isBroadcast (mac : List Nat) : Bool := mac == [255, 255, 255, 255, 255, 255]

/-- Modelled from the spec: a MAC address is multicast when the low bit of
its first octet is set. -/
def isMulticast (mac : List Nat) : Bool :=
  match mac with
  | b :: _ => b % 2 == 1
  | [] => false

/-- Modelled from the spec: the switch's state — the Port Registry (every
transport address that has sent a frame) and the MAC Learning Table (an
association of source MAC to the port it was last seen on).  Timestamps are
irrelevant to the forwarding decision and omitted. -/
structure SwitchState where
  ports : List SockAddrIn
  macTable : List (List Nat × SockAddrIn)
deriving DecidableEq, Repr

/-- Modelled from the spec: `lookup(mac)` in the MAC Learning Table. -/
def lookupMac (t : List (List Nat × SockAddrIn)) (mac : List Nat) : Option SockAddrIn :=
  (t.find? (fun e => e.1 == mac)).map (fun e => e.2)

/-- Modelled from the spec: `register(address)` in the Port Registry —
records the address as a known port if not already present. -/
def registerPort (ps : List SockAddrIn) (p : SockAddrIn) : List SockAddrIn :=
  if ps.contains p then ps else ps ++ [p]

/-- Modelled from the spec: `learn(mac, port)` — idempotent upsert, i.e.
overwrite any prior port for that MAC. -/
def learnMac (t : List (List Nat × SockAddrIn)) (mac : List Nat)
    (p : SockAddrIn) : List (List Nat × SockAddrIn) :=
  (mac, p) :: t.filter (fun e => !(e.1 == mac))

/-- Modelled from the spec: the Switch Forwarding Engine invoked once per
received frame, parameterized by `(frame, source_address)`.  Undersized
frames are dropped; otherwise the source is registered and learned, then the
frame is flooded to every registered port except the source (broadcast,
multicast or unknown unicast destination), or forwarded to exactly the
learned port, dropped silently when that port equals the source.  Returns
the new state and the list of destinations the frame is transmitted to. -/
def processFrame (st : SwitchState) (frame : List Nat)
    (source : SockAddrIn) : SwitchState × List SockAddrIn :=
  if frame.length < 14 then (st, [])
  else
    let dst := frame.take 6
    let src := (frame.drop 6).take 6
    let st1 : SwitchState := ⟨registerPort st.ports source, learnMac st.macTable src source⟩
    if isBroadcast dst || isMulticast dst || (lookupMac st1.macTable dst).isNone then
      (st1, st1.ports.filter (fun p => !(p == source)))
    else
      match lookupMac st1.macTable dst with
      | some p => if p == source then (st1, []) else (st1, [p])
      | none => (st1, [])

/-- 127.0.0.1:8080 — the configured switch address of the examples. -/
def addrA : SockAddrIn := ⟨AF_INET, htons 8080, 2130706433⟩

/-- 10.0.0.1:4242 — some other transport address. -/
def addrB : SockAddrIn := ⟨AF_INET, htons 4242, 167772161⟩

/-- A vport as populated by a successful `vport_init`. -/
def vport0 : Vport := ⟨3, 4, addrA⟩

/-- A minimal (14-byte) Ethernet frame. -/
def frame14 : List Nat := List.replicate 14 0

/-- An undersized 13-byte frame. -/
def frame13 : List Nat := List.replicate 13 0

theorem take_max_of_le {frame : List Nat} (h : frame.length ≤ ETHER_MAX_LEN) :
    frame.take ETHER_MAX_LEN = frame := List.take_of_length_le h

/-- Claim C1: the code passes `&vport->vswitch_addr` as `recvfrom`'s
source-address out-parameter, so receiving a datagram from any sender
overwrites the very field the uplink pump reads as its `sendto`
destination.  Evaluated at the failing input: a well-formed 14-byte
datagram arriving from `addrB` while the configured switch address is
`addrA` leaves `vswitch_addr = addrB ≠ addrA`. -/
theorem downlink_recv_overwrites_vswitch_addr :
    (downlinkDeliver vport0 addrB frame14 14).vport.vswitch_addr = addrB ∧
    addrB ≠ addrA ∧ vport0.vswitch_addr = addrA := by decide

/-- Claim C2 (counterexample): the claim predicts that a 13-byte frame is
dropped and the pump keeps looping; on the code, the 13-byte frame trips
`assert(ether_datasz >= 14)` and the iteration aborts the process instead of
continuing. -/
theorem undersized_frame_cex :
    (uplinkDeliver vport0 frame13 13).outcome = PumpOutcome.assertAbort ∧
    (uplinkDeliver vport0 frame13 13).outcome ≠ PumpOutcome.keepLooping ∧
    (downlinkDeliver vport0 addrB frame13 13).outcome = PumpOutcome.assertAbort := by
  decide

/-- Claim C2 (amended): a frame read from the TAP device or received from
the transport whose length is positive but below 14 bytes makes
`assert(ether_datasz >= 14)` fail, aborting the whole process; the frame is
not forwarded, and the pump does not continue to the next iteration. -/
theorem undersized_frame_asserts (v : Vport) (sender : SockAddrIn)
    (frame : List Nat) (sret wret : Int)
    (h1 : 0 < frame.length) (h2 : frame.length < 14) :
    (uplinkDeliver v frame sret).outcome = PumpOutcome.assertAbort ∧
    (uplinkDeliver v frame sret).sent = [] ∧
    (downlinkDeliver v sender frame wret).outcome = PumpOutcome.assertAbort ∧
    (downlinkDeliver v sender frame wret).written = [] := by
  have ht : frame.take ETHER_MAX_LEN = frame := take_max_of_le (by unfold ETHER_MAX_LEN; omega)
  have hpos : ((frame.length : Int) > 0) := by exact_mod_cast h1
  have hlt : ((frame.length : Int) < 14) := by exact_mod_cast h2
  refine ⟨?_, ?_, ?_, ?_⟩ <;>
    simp [uplinkDeliver, downlinkDeliver, sysRead, forward_ether_data_to_vswitch_step,
      forward_ether_data_to_tap_step, ht, hpos, hlt]

/-- Claim C2 (witness). -/
theorem undersized_frame_asserts_witness :
    (uplinkDeliver vport0 frame13 13).outcome = PumpOutcome.assertAbort ∧
    (uplinkDeliver vport0 frame13 13).sent = [] ∧
    (downlinkDeliver vport0 addrB frame13 13).outcome = PumpOutcome.assertAbort ∧
    (downlinkDeliver vport0 addrB frame13 13).written = [] :=
  undersized_frame_asserts vport0 addrB frame13 13 13 (by decide) (by decide)

/-- Claim C3: a frame of length n with 14 ≤ n ≤ 1518 read from the TAP
device is sent to the switch as exactly one datagram holding exactly those
bytes, and a datagram of length n with 14 ≤ n ≤ 1518 received from the
transport is written to the TAP device byte-for-byte — no corruption,
truncation or padding in either direction. -/
theorem pumps_forward_frame_verbatim (v w : Vport) (sender : SockAddrIn)
    (frame dgram : List Nat) (sret wret : Int)
    (h1 : 14 ≤ frame.length) (h2 : frame.length ≤ 1518)
    (h3 : 14 ≤ dgram.length) (h4 : dgram.length ≤ 1518) :
    (uplinkDeliver v frame sret).sent = [(frame, v.vswitch_addr)] ∧
    (downlinkDeliver w sender dgram wret).written = [dgram] := by
  have htf : frame.take ETHER_MAX_LEN = frame := take_max_of_le h2
  have htd : dgram.take ETHER_MAX_LEN = dgram := take_max_of_le h4
  have hf1 : ((frame.length : Int) > 0) := by exact_mod_cast Nat.lt_of_lt_of_le (by omega) h1
  have hf2 : ¬ ((frame.length : Int) < 14) := by exact_mod_cast Nat.not_lt.mpr h1
  have hd1 : ((dgram.length : Int) > 0) := by exact_mod_cast Nat.lt_of_lt_of_le (by omega) h3
  have hd2 : ¬ ((dgram.length : Int) < 14) := by exact_mod_cast Nat.not_lt.mpr h3
  constructor <;>
    simp [uplinkDeliver, downlinkDeliver, sysRead, forward_ether_data_to_vswitch_step,
      forward_ether_data_to_tap_step, htf, htd, hf1, hf2, hd1, hd2]

/-- Claim C3 (witness). -/
theorem pumps_forward_frame_verbatim_witness :
    (uplinkDeliver vport0 frame14 14).sent = [(frame14, vport0.vswitch_addr)] ∧
    (downlinkDeliver vport0 addrB frame14 14).written = [frame14] :=
  pumps_forward_frame_verbatim vport0 vport0 addrB frame14 frame14 14 14
    (by decide) (by decide) (by decide) (by decide)

/-- Claim C4 (counterexample): the claim predicts that a negative return
from the local-interface read or write is fatal — no retry, no further
looping.  On the code, a `read` returning -1 in the uplink pump skips the
body and the `while (true)` loop simply runs again (reaching the next
read), and a `write` returning -1 in the downlink pump only logs a size
mismatch and also keeps looping. -/
theorem local_io_failure_cex :
    (forward_ether_data_to_vswitch_step vport0 (-1) [] 0).outcome = PumpOutcome.keepLooping ∧
    (forward_ether_data_to_vswitch_step vport0 (-1) [] 0).sent = [] ∧
    (downlinkDeliver vport0 addrB frame14 (-1)).outcome = PumpOutcome.keepLooping ∧
    (downlinkDeliver vport0 addrB frame14 (-1)).mismatchLogged = true := by
  decide

/-- Claim C4 (amended): neither pump treats a local-interface failure as
fatal.  A non-positive return from the TAP `read` in the uplink pump makes
the iteration send nothing and fall through to the next loop iteration
(i.e. the read is effectively retried); a negative return from the TAP
`write` in the downlink pump is logged as a size mismatch and the loop
likewise continues. -/
theorem local_io_failure_not_fatal (v : Vport) (sender : SockAddrIn)
    (buf dgram : List Nat) (sret e wret : Int)
    (he : e ≤ 0) (h3 : 14 ≤ dgram.length) (h4 : dgram.length ≤ 1518) (hw : wret < 0) :
    (forward_ether_data_to_vswitch_step v e buf sret).outcome = PumpOutcome.keepLooping ∧
    (forward_ether_data_to_vswitch_step v e buf sret).sent = [] ∧
    (downlinkDeliver v sender dgram wret).outcome = PumpOutcome.keepLooping ∧
    (downlinkDeliver v sender dgram wret).mismatchLogged = true := by
  have htd : dgram.take ETHER_MAX_LEN = dgram := take_max_of_le h4
  have hd1 : ((dgram.length : Int) > 0) := by exact_mod_cast Nat.lt_of_lt_of_le (by omega) h3
  have hd2 : ¬ ((dgram.length : Int) < 14) := by exact_mod_cast Nat.not_lt.mpr h3
  have hne : wret ≠ (dgram.length : Int) := by omega
  have hee : ¬ (e > 0) := by omega
  refine ⟨?_, ?_, ?_, ?_⟩ <;>
    simp [forward_ether_data_to_vswitch_step, downlinkDeliver, sysRead,
      forward_ether_data_to_tap_step, htd, hd1, hd2, hne, hee]

/-- Claim C4 (witness). -/
theorem local_io_failure_not_fatal_witness :
    (forward_ether_data_to_vswitch_step vport0 (-2) [] 0).outcome = PumpOutcome.keepLooping ∧
    (forward_ether_data_to_vswitch_step vport0 (-2) [] 0).sent = [] ∧
    (downlinkDeliver vport0 addrA frame14 (-2)).outcome = PumpOutcome.keepLooping ∧
    (downlinkDeliver vport0 addrA frame14 (-2)).mismatchLogged = true :=
  local_io_failure_not_fatal vport0 addrA [] frame14 0 (-2) (-2)
    (by decide) (by decide) (by decide) (by decide)

/-- Claim C6: when `sendto` in the uplink pump returns anything other than
the frame length, the pump prints the size-mismatch line, still performed
exactly one send (no retry), and the loop continues with the next frame. -/
theorem short_send_logged_not_retried (v : Vport) (frame : List Nat) (sret : Int)
    (h1 : 14 ≤ frame.length) (h2 : frame.length ≤ 1518)
    (hm : sret ≠ (frame.length : Int)) :
    (uplinkDeliver v frame sret).sent = [(frame, v.vswitch_addr)] ∧
    (uplinkDeliver v frame sret).mismatchLogged = true ∧
    (uplinkDeliver v frame sret).outcome = PumpOutcome.keepLooping := by
  have htf : frame.take ETHER_MAX_LEN = frame := take_max_of_le h2
  have hf1 : ((frame.length : Int) > 0) := by exact_mod_cast Nat.lt_of_lt_of_le (by omega) h1
  have hf2 : ¬ ((frame.length : Int) < 14) := by exact_mod_cast Nat.not_lt.mpr h1
  refine ⟨?_, ?_, ?_⟩ <;>
    simp [uplinkDeliver, sysRead, forward_ether_data_to_vswitch_step, htf, hf1, hf2, hm]

/-- Claim C6 (witness). -/
theorem short_send_logged_not_retried_witness :
    (uplinkDeliver vport0 frame14 (-1)).sent = [(frame14, vport0.vswitch_addr)] ∧
    (uplinkDeliver vport0 frame14 (-1)).mismatchLogged = true ∧
    (uplinkDeliver vport0 frame14 (-1)).outcome = PumpOutcome.keepLooping :=
  short_send_logged_not_retried vport0 frame14 (-1) (by decide) (by decide) (by decide)

/-- Claim C5: the forwarding engine (modelled from the spec, vswitch.py not
being among the sources) never transmits a frame back to the transport
address it arrived from: flooding filters the source out of the port set,
and a known-unicast frame whose learned port equals the source is dropped
silently. -/
theorem no_self_echo (st : SwitchState) (frame : List Nat) (source : SockAddrIn) :
    ((processFrame st frame source).2.contains source) = false := by
  unfold processFrame
  split
  · rfl
  · dsimp only
    split
    · simp [List.contains]
    · split
      · split
        · rfl
        · rename_i p hlk hne
          simp [List.contains]
          have hne2 : ¬ p = source := by simpa using hne
          exact fun h => hne2 h.symm
      · rfl

/-- Claim C7: any setup failure in `vport_init` — `tap_alloc` returning a
negative descriptor, `socket` returning a negative descriptor, or
`inet_pton` returning anything other than 1 — reaches
`ERROR_PRINT_THEN_EXIT`, which prints a diagnostic to stderr and calls
`exit(1)`: the process terminates with the non-zero status 1 and no vport is
ever populated. -/
theorem setup_failure_exits_nonzero (tapRet sockRet ptonRet : Int)
    (ptonAddr server_port : Nat)
    (h : tapRet < 0 ∨ sockRet < 0 ∨ ptonRet ≠ 1) :
    vport_init tapRet sockRet ptonRet ptonAddr server_port = InitResult.exited 1 ∧
    (1 : Nat) ≠ 0 := by
  refine ⟨?_, by decide⟩
  unfold vport_init
  rcases h with h | h | h
  · simp [h]
  · rcases lt_or_le tapRet 0 with h2 | h2
    · simp [h2]
    · simp [Int.not_lt.mpr h2, h]
  · rcases lt_or_le tapRet 0 with h2 | h2
    · simp [h2]
    · rcases lt_or_le sockRet 0 with h3 | h3
      · simp [Int.not_lt.mpr h2, h3]
      · simp [Int.not_lt.mpr h2, Int.not_lt.mpr h3, h]

/-- Claim C7 (witness). -/
theorem setup_failure_exits_nonzero_witness :
    vport_init (-1) 4 1 0 8080 = InitResult.exited 1 ∧ (1 : Nat) ≠ 0 :=
  setup_failure_exits_nonzero (-1) 4 1 0 8080 (Or.inl (by decide))

/-- Claim C8: both pumps read or receive into a 1518-byte buffer
(`char ether_data[ETHER_MAX_LEN]`) and forward only the bytes the call
delivered, so every datagram handed to `sendto` and every frame handed to
the TAP `write` is at most 1518 bytes long, whatever the interface or the
transport offers. -/
theorem forwarded_data_bounded (v w : Vport) (sender : SockAddrIn)
    (frame dgram : List Nat) (sret wret : Int) :
    ((uplinkDeliver v frame sret).sent.all
      (fun d => decide (d.1.length ≤ ETHER_MAX_LEN))) = true ∧
    ((downlinkDeliver w sender dgram wret).written.all
      (fun f => decide (f.length ≤ ETHER_MAX_LEN))) = true := by
  constructor
  · unfold uplinkDeliver sysRead forward_ether_data_to_vswitch_step
    dsimp only
    split
    · split
      · rfl
      · simp
    · rfl
  · unfold downlinkDeliver sysRead forward_ether_data_to_tap_step
    dsimp only
    split
    · split
      · rfl
      · simp
    · rfl

/-- The caller's interface-name buffer, "tapyuan" as bytes. -/
def devName0 : List Nat := [116, 97, 112, 121, 117, 97, 110]

/-- A kernel-assigned interface name, "tapyuan0" as bytes. -/
def kname0 : List Nat := [116, 97, 112, 121, 117, 97, 110, 48]

/-- Claim C9: after a successful `open`, if `TUNSETIFF` fails `tap_alloc`
closes the fd it opened and returns the negative error code with the
caller's name buffer untouched; if the ioctl succeeds it copies the
kernel-assigned `ifr.ifr_name` into the caller's buffer and returns the
non-negative fd from `open`. -/
theorem tap_alloc_ioctl_behavior (dev kernelName : List Nat)
    (openRet ioctlRet : Int) (hopen : 0 ≤ openRet) :
    (ioctlRet < 0 →
      tap_alloc dev openRet ioctlRet kernelName = ⟨ioctlRet, dev, true⟩ ∧ ioctlRet < 0) ∧
    (0 ≤ ioctlRet →
      tap_alloc dev openRet ioctlRet kernelName = ⟨openRet, kernelName, false⟩ ∧
      0 ≤ openRet) := by
  constructor
  · intro hio
    exact ⟨by simp [tap_alloc, Int.not_lt.mpr hopen, hio], hio⟩
  · intro hio
    exact ⟨by simp [tap_alloc, Int.not_lt.mpr hopen, Int.not_lt.mpr hio], hopen⟩

/-- Claim C9 (witness). -/
theorem tap_alloc_ioctl_behavior_witness :
    (tap_alloc devName0 3 (-1) kname0 = ⟨-1, devName0, true⟩ ∧ (-1 : Int) < 0) ∧
    (tap_alloc devName0 3 0 kname0 = ⟨3, kname0, false⟩ ∧ (0 : Int) ≤ 3) :=
  ⟨(tap_alloc_ioctl_behavior devName0 kname0 3 (-1) (by decide)).1 (by decide),
   (tap_alloc_ioctl_behavior devName0 kname0 3 0 (by decide)).2 (by decide)⟩

/-- Claim C10: whenever `vport_init` returns instead of exiting, the vport
it populated holds exactly what the setup calls produced: an `AF_INET`
family, the server port in network byte order, the address `inet_pton`
parsed, the non-negative fd from `tap_alloc` and the non-negative fd from
`socket`. -/
theorem vport_init_populates (tapRet sockRet ptonRet : Int)
    (ptonAddr server_port : Nat) (v : Vport)
    (h : vport_init tapRet sockRet ptonRet ptonAddr server_port = InitResult.ok v) :
    v.vswitch_addr.sin_family = AF_INET ∧
    v.vswitch_addr.sin_port = htons server_port ∧
    v.vswitch_addr.sin_addr = ptonAddr ∧
    v.tapfd = tapRet ∧ 0 ≤ tapRet ∧
    v.vport_sockfd = sockRet ∧ 0 ≤ sockRet := by
  unfold vport_init at h
  split at h
  · exact absurd h (by simp)
  · split at h
    · exact absurd h (by simp)
    · split at h
      · exact absurd h (by simp)
      · rename_i h1 h2 h3
        cases h
        exact ⟨rfl, rfl, rfl, rfl, Int.not_lt.mp h1, rfl, Int.not_lt.mp h2⟩

/-- Claim C10 (witness). -/
theorem vport_init_populates_witness :
    (⟨3, 4, ⟨AF_INET, htons 8080, 2130706433⟩⟩ : Vport).vswitch_addr.sin_family = AF_INET ∧
    (⟨3, 4, ⟨AF_INET, htons 8080, 2130706433⟩⟩ : Vport).vswitch_addr.sin_port = htons 8080 ∧
    (⟨3, 4, ⟨AF_INET, htons 8080, 2130706433⟩⟩ : Vport).vswitch_addr.sin_addr = 2130706433 ∧
    (⟨3, 4, ⟨AF_INET, htons 8080, 2130706433⟩⟩ : Vport).tapfd = 3 ∧ (0 : Int) ≤ 3 ∧
    (⟨3, 4, ⟨AF_INET, htons 8080, 2130706433⟩⟩ : Vport).vport_sockfd = 4 ∧ (0 : Int) ≤ 4 :=
  vport_init_populates 3 4 1 2130706433 8080 ⟨3, 4, ⟨AF_INET, htons 8080, 2130706433⟩⟩
    (by decide)
